import Mathlib

/-!
Shallow embedding of the docker resource-management core of this repository:
the fact normalizer (facts/util/docker.py), the command renderers
(operations/util/docker.py) and the reconciler operations
(operations/docker.py).  Python dicts are modelled as association lists in
insertion order, Python exceptions as an explicit error type threaded through
the reconciliation pass, and a generator-based operation as the list of
command strings it yields before terminating or raising.
-/

namespace PyinfraDocker

/-- Embeds the JSON-like Python values that flow through the docker facts and
the keyword-argument mappings of the renderers: strings, booleans, lists of
strings, and nested records (dicts). -/
inductive Value where
  | vstr  : String → Value
  | vbool : Bool → Value
  | vlist : List String → Value
  | vdict : List (String × Value) → Value

/-- Embeds a Python dict with string keys as an association list in insertion
order (Python dicts built from JSON have pairwise-distinct keys). -/
abbrev PyDict := List (String × Value)

/-- Embeds the Python exceptions the reconciliation pass can raise:
`OperationError` (configuration error from pyinfra.api), `KeyError` from a
failed dict subscript, and `TypeError` from subscripting a non-dict. -/
inductive DErr where
  | operationError : String → DErr
  | keyError : String → DErr
  | typeError : DErr
deriving DecidableEq

/-- Embeds the Python subscript `d[k]` on a dict: the value at the first
matching key, or a `KeyError` naming the missing key. -/
def pyGet (d : PyDict) (k : String) : Except DErr Value :=
  match d.find? (fun p => p.1 == k) with
  | some p => Except.ok p.2
  | none => Except.error (DErr.keyError k)

/-- Embeds the Python subscript `v[k]` on an arbitrary value: a dict lookup
when the value is a dict, a `TypeError` otherwise. -/
def pyGetItem (v : Value) (k : String) : Except DErr Value :=
  match v with
  | Value.vdict d => pyGet d k
  | _ => Except.error DErr.typeError

/-- Embeds the Python comparison `v == s` between a fetched value and a string
literal: true exactly when the value is that string (comparing a non-string
against a string is `False` in Python, not an error). -/
def valueEqStr : Value → String → Bool
  | Value.vstr t, s => t == s
  | _, _ => false

mutual

/-- Embeds Python `repr` on the modelled values (single-quoted strings,
`True`/`False`, bracketed lists, braced dicts). -/
def pyRepr : Value → String
  | Value.vstr s => "\x27" ++ s ++ "\x27"
  | Value.vbool b => if b then "True" else "False"
  | Value.vlist l =>
      "[" ++ String.intercalate ", " (l.map fun x => "\x27" ++ x ++ "\x27") ++ "]"
  | Value.vdict d => "\x7b" ++ String.intercalate ", " (pyReprFields d) ++ "\x7d"

/-- Embeds Python `repr` on the fields of a dict, in insertion order. -/
def pyReprFields : List (String × Value) → List String
  | [] => []
  | (k, v) :: rest => ("\x27" ++ k ++ "\x27: " ++ pyRepr v) :: pyReprFields rest

end

/-- Embeds Python `str(v)` as used by `"...{0}".format(v)`: a string inserts
itself, every other value inserts its `repr`. -/
def pyStr : Value → String
  | Value.vstr s => s
  | v => pyRepr v

/-- Embeds Python truthiness of `next(iter(fact_result), None)`: `None` is
falsy, a dict is truthy exactly when non-empty. -/
def truthyD : Option PyDict → Bool
  | none => false
  | some d => !d.isEmpty

/-! Fact normalizer, from `pyinfra/facts/util/docker.py`. -/

/-- Embeds the action of the regex sub on the characters after the first one:
an underscore is inserted before each (ASCII) upper-case letter. -/
def insertSepAux : List Char → List Char
  | [] => []
  | c :: cs => (if c.isUpper then ['_', c] else [c]) ++ insertSepAux cs

/-- Embeds `pattern.sub("_", key)` for the pattern matching every upper-case
letter not at the start of the string. -/
def camelSub (s : String) : String :=
  match s.data with
  | [] => ""
  | c :: cs => String.mk (c :: insertSepAux cs)

/-- Embeds Python `str.lower` character-wise (keys in docker output are
ASCII, on which `Char.toLower` agrees with Python's lowering). -/
def strLower (s : String) : String :=
  String.mk (s.data.map Char.toLower)

/-- Embeds `convert_key`: keys on the allow-list `ID`, `IPv6`, `IPv4` are
lower-cased whole; any other key has an underscore inserted before each
internal upper-case letter and is then lower-cased. -/
def convert_key (key : String) : String :=
  if key = "ID" || key = "IPv6" || key = "IPv4" then strLower key
  else strLower (camelSub key)

/-- Embeds a Python dict insertion `d[k] = v`: when the key already exists
the value is overwritten in place (the entry keeps its position), otherwise
the pair is appended in insertion order. -/
def dictInsert (d : PyDict) (k : String) (v : Value) : PyDict :=
  if d.any (fun p => p.1 == k) then
    d.map (fun p => if p.1 == k then (p.1, v) else p)
  else d ++ [(k, v)]

/-- Embeds `convert_dict`: the dict comprehension iterates the keys in
insertion order and inserts each rewritten key with the unchanged value into
a fresh dict, so two keys that normalize to the same key leave only the later
value (Python overwrite-on-collision semantics). -/
def convert_dict (d : PyDict) : PyDict :=
  d.foldl (fun acc p => dictInsert acc (convert_key p.1) p.2) []

/-! Command renderers, from `pyinfra/operations/util/docker.py`.  The
`handle_docker` dispatch table maps each (resource, command) pair to the
renderer below, so the operations inline the dispatched renderer. -/

/-- Embeds the parameters of the `container` operation (its keyword
arguments, with the source's defaults). -/
structure ContainerSpec where
  container : String
  image : String := ""
  ports : List String := []
  networks : List String := []
  volumes : List String := []
  env_vars : List String := []
  pull_always : Bool := false
  present : Bool := true
  force : Bool := false
  start : Bool := true

/-- Embeds the parameters of the `image` operation. -/
structure ImageSpec where
  image : String
  present : Bool := true

/-- Embeds the parameters of the `volume` operation. -/
structure VolumeSpec where
  volume : String
  driver : String := ""
  labels : List String := []
  present : Bool := true

/-- Embeds the parameters of the `network` resource (the renderer
`_create_network`'s keyword arguments). -/
structure NetworkSpec where
  network : String
  driver : String := ""
  gateway : String := ""
  ip_range : String := ""
  ipam_driver : String := ""
  subnet : String := ""
  scope : String := ""
  ingress : Bool := false
  attachable : Bool := false
  opts : List String := []
  ipam_opts : List String := []
  labels : List String := []
  present : Bool := true

/-- Embeds `_start_container`. -/
def _start_container (c : String) : String :=
  "docker container start " ++ c

/-- Embeds `_stop_container`. -/
def _stop_container (c : String) : String :=
  "docker container stop " ++ c

/-- Embeds `_remove_container`. -/
def _remove_container (c : String) : String :=
  "docker container rm -f " ++ c

/-- Embeds `_create_container`: raises an `OperationError` when `image` is
empty, otherwise joins with spaces the name part, one flag per network, port,
volume and env var in input order, the pull policy, the image, and — when
`start` is set — a chained start invocation after a command separator. -/
def _create_container (s : ContainerSpec) : Except DErr String :=
  if s.image = "" then
    Except.error (DErr.operationError "missing 1 required argument: \x27image\x27")
  else
    Except.ok (String.intercalate " "
      (["docker container create --name " ++ s.container]
        ++ s.networks.map (fun n => "--network " ++ n)
        ++ s.ports.map (fun p => "-p " ++ p)
        ++ s.volumes.map (fun v => "-v " ++ v)
        ++ s.env_vars.map (fun e => "-e " ++ e)
        ++ (if s.pull_always then ["--pull always"] else [])
        ++ [s.image]
        ++ (if s.start then ["; " ++ _start_container s.container] else [])))

/-- Embeds `_pull_image`. -/
def _pull_image (i : String) : String :=
  "docker image pull " ++ i

/-- Embeds `_remove_image`. -/
def _remove_image (i : String) : String :=
  "docker image rm " ++ i

/-- Embeds the keyword-argument mapping `kwargs` of a `_create_volume` call,
as passed by the `volume` operation through `handle_docker`. -/
def volKwargs (s : VolumeSpec) : PyDict :=
  [("volume", Value.vstr s.volume),
   ("driver", Value.vstr s.driver),
   ("labels", Value.vlist s.labels),
   ("present", Value.vbool s.present)]

/-- Embeds the label loop of `_create_volume`: the source formats
`kwargs[label]` — a subscript of the keyword mapping by the label string —
into each `--label` flag, raising `KeyError` at the first label that is not
a keyword name. -/
def volLabelFlags (s : VolumeSpec) : List String → Except DErr (List String)
  | [] => Except.ok []
  | l :: ls =>
    match pyGet (volKwargs s) l with
    | Except.error e => Except.error e
    | Except.ok v =>
      match volLabelFlags s ls with
      | Except.error e => Except.error e
      | Except.ok rest => Except.ok (("--label " ++ pyStr v) :: rest)

/-- Embeds `_create_volume`: the create part, a `-d` flag when the driver is
non-empty, then the label flags, joined with spaces. -/
def _create_volume (s : VolumeSpec) : Except DErr String :=
  match volLabelFlags s s.labels with
  | Except.error e => Except.error e
  | Except.ok lf =>
    Except.ok (String.intercalate " "
      (["docker volume create " ++ s.volume]
        ++ (if s.driver ≠ "" then ["-d " ++ s.driver] else [])
        ++ lf))

/-- Embeds `_remove_volume`: the source renders the *image*-removal
subcommand with the volume name. -/
def _remove_volume (v : String) : String :=
  "docker image rm " ++ v

/-- Embeds the command list built by `_create_network`, in source order. -/
def _create_network_parts (s : NetworkSpec) : List String :=
  ["docker network create " ++ s.network]
    ++ (if s.driver ≠ "" then ["-d " ++ s.driver] else [])
    ++ (if s.gateway ≠ "" then ["--gateway " ++ s.gateway] else [])
    ++ (if s.ip_range ≠ "" then ["--ip-range " ++ s.ip_range] else [])
    ++ (if s.ipam_driver ≠ "" then ["--ipam-driver " ++ s.ipam_driver] else [])
    ++ (if s.subnet ≠ "" then ["--subnet " ++ s.subnet] else [])
    ++ (if s.scope ≠ "" then ["--scope " ++ s.scope] else [])
    ++ (if s.ingress then ["--ingress"] else [])
    ++ (if s.attachable then ["--attachable"] else [])
    ++ s.opts.map (fun o => "--opt " ++ o)
    ++ s.ipam_opts.map (fun o => "--ipam-opt " ++ o)
    ++ s.labels.map (fun l => "--label " ++ l)

/-- Embeds `_create_network`: the source builds the command list but has no
return statement, so the Python call evaluates to `None` regardless. -/
def _create_network (s : NetworkSpec) : Option String :=
  let _cmd := _create_network_parts s
  none

/-- Embeds `_remove_network`. -/
def _remove_network (n : String) : String :=
  "docker network rm " ++ n

/-! Reconciler operations, from `pyinfra/operations/docker.py`.  Each
operation is a generator; it is embedded as the list of command strings it
yields together with the exception, if any, that ends the pass early. -/

/-- Embeds the dereference `existent_container["State"][k]` used by the
start/stop guards of the `container` operation: a dict subscript on the
observed record, then a subscript of the fetched value. -/
def lookupState (obs : Option PyDict) (k : String) : Except DErr Value :=
  match obs with
  | some d =>
    match pyGet d "State" with
    | Except.ok v => pyGetItem v k
    | Except.error e => Except.error e
  | none => Except.error DErr.typeError

/-- Embeds the tail of the `container` operation after the start/stop guards:
the remove step for `present=false` against an existing container. -/
def containerRest2 (s : ContainerSpec) (t : Bool) (acc : List String) :
    List String × Option DErr :=
  if t && !s.present then (acc ++ [_remove_container s.container], none)
  else (acc, none)

/-- Embeds the start/stop guards of the `container` operation: when the
container pre-exists and `start` is set, the guard reads
`["State"]["Status="]` and yields a start command unless the value equals
"running"; when it pre-exists and `start` is unset, the guard reads
`["State"]["Status"]` and yields a stop command when the value equals
"running".  A failed subscript raises, ending the pass. -/
def containerRest (s : ContainerSpec) (obs : Option PyDict) (t : Bool)
    (acc : List String) : List String × Option DErr :=
  if t && s.start then
    match lookupState obs "Status=" with
    | Except.error e => (acc, some e)
    | Except.ok v =>
      containerRest2 s t
        (if !(valueEqStr v "running") then acc ++ [_start_container s.container]
         else acc)
  else if t && !s.start then
    match lookupState obs "Status" with
    | Except.error e => (acc, some e)
    | Except.ok v =>
      containerRest2 s t
        (if valueEqStr v "running" then acc ++ [_stop_container s.container]
         else acc)
  else containerRest2 s t acc

/-- Embeds the `container` operation.  `obs` is
`next(iter(host.get_fact(DockerContainer, ...)), None)`: the first observed
record, or `none`.  Guards fire in source order: the forced remove, the
create (which raises before yielding when `image` is empty), then the
start/stop guards and the `present=false` remove via `containerRest`.
Returns the yielded command strings and the exception, if any. -/
def container_op (s : ContainerSpec) (obs : Option PyDict) :
    List String × Option DErr :=
  let t := truthyD obs
  let acc := if s.force && t then [_remove_container s.container] else []
  if s.present && (!t || s.force) then
    match _create_container s with
    | Except.error e => (acc, some e)
    | Except.ok c => containerRest s obs t (acc ++ [c])
  else containerRest s obs t acc

/-- Embeds the `image` operation: a pure function of the spec, with no
existence lookup — one pull command when `present`, one remove otherwise. -/
def image_op (s : ImageSpec) : List String :=
  if s.present then [_pull_image s.image] else [_remove_image s.image]

/-- Embeds the `volume` operation.  Returns the no-op messages passed to
`host.noop`, the yielded command strings, and the exception, if any.  The
`present=true` branch tests the record's truthiness, the `present=false`
branch tests `is None`. -/
def volume_op (s : VolumeSpec) (obs : Option PyDict) :
    List String × List String × Option DErr :=
  if s.present then
    if truthyD obs then (["Volume alredy exist!"], [], none)
    else
      match _create_volume s with
      | Except.error e => ([], [], some e)
      | Except.ok c => ([], [c], none)
  else
    if obs.isNone then (["There is no " ++ s.volume ++ " volume!"], [], none)
    else ([], [_remove_volume s.volume], none)

/-- Modelled from the spec: the network reconciler (§4.5) is not among the
source files; per the spec it is the same two-way toggle as the image
reconciler — `present=true` yields the rendered create invocation with all
provided fields, `present=false` yields the rendered remove invocation, with
no existence lookup.  The renderers themselves are embedded from the source
above; a yielded item is `none` when the renderer returns `None`. -/
def network_op (s : NetworkSpec) : List (Option String) :=
  if s.present then [_create_network s]
  else [some (_remove_network s.network)]

/-! Helper lemmas about the shapes of errors the subscript helpers can
produce: a failed dict subscript raises a `KeyError` or `TypeError`, never a
configuration (`OperationError`) error. -/

lemma pyGet_not_opErr (d : PyDict) (k m : String) :
    pyGet d k ≠ Except.error (DErr.operationError m) := by
  unfold pyGet
  cases d.find? (fun p => p.1 == k) <;> simp

lemma pyGetItem_not_opErr (v : Value) (k m : String) :
    pyGetItem v k ≠ Except.error (DErr.operationError m) := by
  cases v with
  | vdict d => exact pyGet_not_opErr d k m
  | vstr s => simp [pyGetItem]
  | vbool b => simp [pyGetItem]
  | vlist l => simp [pyGetItem]

lemma lookupState_not_opErr (obs : Option PyDict) (k m : String) :
    lookupState obs k ≠ Except.error (DErr.operationError m) := by
  cases obs with
  | none => simp [lookupState]
  | some d =>
    cases h : pyGet d "State" with
    | error e =>
      simp [lookupState, h]
      intro he
      exact pyGet_not_opErr d "State" m (he ▸ h)
    | ok v =>
      simp [lookupState, h]
      exact pyGetItem_not_opErr v k m

lemma containerRest2_snd (s : ContainerSpec) (t : Bool) (acc : List String) :
    (containerRest2 s t acc).2 = none := by
  unfold containerRest2
  split <;> rfl

lemma containerRest_not_opErr (s : ContainerSpec) (obs : Option PyDict) (t : Bool)
    (acc : List String) (m : String) :
    (containerRest s obs t acc).2 ≠ some (DErr.operationError m) := by
  unfold containerRest
  split
  · cases h : lookupState obs "Status=" with
    | error e =>
      simp only [h]
      intro he
      have hee : e = DErr.operationError m := by simpa using he
      exact lookupState_not_opErr obs "Status=" m (hee ▸ h)
    | ok v => simp only [h, containerRest2_snd]; simp
  · split
    · cases h : lookupState obs "Status" with
      | error e =>
        simp only [h]
        intro he
        have hee : e = DErr.operationError m := by simpa using he
        exact lookupState_not_opErr obs "Status" m (hee ▸ h)
      | ok v => simp only [h, containerRest2_snd]; simp
    · simp [containerRest2_snd]

/-- C1: for the end-to-end scenario — spec `nginx` / image `nginx:alpine` /
ports `80:80` with `present`, `force` and `start` set, against a normalized
record for an existing running container — the pass yields the forced remove
and then the create with its chained start, but it does not end there: the
start guard's subscript of the normalized record by the key `State` (and then
`Status=`) fails, so the pass aborts with a `KeyError` instead of completing
with exactly those two actions. -/
theorem forced_recreate_pass_aborts :
    container_op ⟨"nginx", "nginx:alpine", ["80:80"], [], [], [], false, true, true, true⟩
      (some (convert_dict [("State", Value.vdict [("Status", Value.vstr "running")])]))
    = (["docker container rm -f nginx",
        "docker container create --name nginx -p 80:80 nginx:alpine ; docker container start nginx"],
       some (DErr.keyError "State")) := rfl

/-- C2 (counterexample): with `present=true`, an empty image, `force=true`
and an existing container, the pass yields the forced remove command *before*
raising the configuration error, so the sequence of commands yielded prior to
the error is not empty. -/
theorem container_empty_image_counterexample :
    ¬ ((container_op ⟨"nginx", "", [], [], [], [], false, true, true, true⟩
        (some [("state", Value.vstr "running")])).1 = []) := by decide

/-- C2 (amended): with `present=true` and an empty image, the configuration
error is raised exactly when the create step fires.  When the container does
not pre-exist, no command precedes the error; when it pre-exists and
`force=true`, exactly the forced remove command precedes the error; when it
pre-exists and `force=false`, the create step is skipped and no configuration
error is raised at all (the pass may still fail later in the start/stop
guards, but with a key/type error, not a configuration error). -/
theorem container_empty_image_behavior (s : ContainerSpec) (obs : Option PyDict)
    (hp : s.present = true) (hi : s.image = "") :
    (truthyD obs = false →
       container_op s obs
         = ([], some (DErr.operationError "missing 1 required argument: \x27image\x27")))
  ∧ (truthyD obs = true → s.force = true →
       container_op s obs
         = ([_remove_container s.container],
            some (DErr.operationError "missing 1 required argument: \x27image\x27")))
  ∧ (truthyD obs = true → s.force = false →
       ∀ m, (container_op s obs).2 ≠ some (DErr.operationError m)) := by
  refine ⟨?_, ?_, ?_⟩
  · intro ht
    simp [container_op, ht, hp, _create_container, hi]
  · intro ht hf
    simp [container_op, ht, hp, hf, _create_container, hi]
  · intro ht hf m
    simp only [container_op, ht, hp, hf]
    simp only [Bool.not_true, Bool.or_false, Bool.and_false, Bool.false_and, Bool.and_true]
    simp
    exact containerRest_not_opErr s obs true [] m

/-- C2 (witness): the amended behaviour at a concrete input — empty image,
`force=true`, existing container — yields exactly the remove command before
the configuration error. -/
theorem container_empty_image_behavior_witness :
    container_op ⟨"nginx", "", [], [], [], [], false, true, true, true⟩
        (some [("state", Value.vstr "running")])
      = (["docker container rm -f nginx"],
         some (DErr.operationError "missing 1 required argument: \x27image\x27")) :=
  (container_empty_image_behavior ⟨"nginx", "", [], [], [], [], false, true, true, true⟩
      (some [("state", Value.vstr "running")]) rfl rfl).2.1 rfl rfl

/-- C3: for a spec with `start=true` against a normalizer-produced record for
an existing container, whatever the run-state status string is (running or
not), the start guard never yields a start command: its subscript
`["State"]["Status="]` fails on the normalized record — the normalizer
lower-cases the top-level key to `state`, and the sub-key carries a stray
equals sign — so the pass aborts with a `KeyError` instead. -/
theorem start_guard_key_error (st : String) :
    container_op ⟨"nginx", "nginx:alpine", [], [], [], [], false, true, false, true⟩
      (some (convert_dict [("State", Value.vdict [("Status", Value.vstr st)])]))
    = ([], some (DErr.keyError "State")) := rfl

/-- C4: for a spec with `start=false`, `force=false`, `present=true` against
a normalizer-produced record for an existing running container (status
`running`, or any status string), the stop guard never yields the expected
single stop command: its subscript `["State"]["Status"]` fails because the
normalizer lower-cased the top-level key to `state`, so the pass aborts with
a `KeyError` and yields nothing. -/
theorem stop_guard_key_error (st : String) :
    container_op ⟨"nginx", "nginx:alpine", [], [], [], [], false, true, false, false⟩
      (some (convert_dict [("State", Value.vdict [("Status", Value.vstr st)])]))
    = ([], some (DErr.keyError "State")) := rfl

/-- C5 (counterexample): an observed state holding an (empty) record for the
volume is an existing volume by the record-presence reading, yet the
`present=true` branch — which tests the record's truthiness, not its
presence — emits the create command instead of exactly one no-op. -/
theorem volume_noop_counterexample :
    ¬ ((volume_op ⟨"v0", "", [], true⟩ (some [])).1.length = 1
      ∧ (volume_op ⟨"v0", "", [], true⟩ (some [])).2.1 = []) := by decide

/-- C5 (amended): `present=true` against an observed state holding a
*non-empty* record yields exactly one no-op and no command, and
`present=false` against an absent record yields exactly one no-op and no
command; the empty-record corner is excluded because the `present=true`
branch tests truthiness while the `present=false` branch tests `is None`. -/
theorem volume_noop_cases (s : VolumeSpec) (obs : Option PyDict) :
    (s.present = true → ∀ r, obs = some r → r ≠ [] →
      volume_op s obs = (["Volume alredy exist!"], [], none))
  ∧ (s.present = false → obs = none →
      volume_op s obs = (["There is no " ++ s.volume ++ " volume!"], [], none)) := by
  constructor
  · intro hp r hobs hr
    subst hobs
    cases r with
    | nil => exact absurd rfl hr
    | cons a as => simp [volume_op, hp, truthyD]
  · intro hp hobs
    subst hobs
    simp [volume_op, hp]

/-- C5 (witness): the amended behaviour at a concrete input — `present=true`
against a non-empty record — yields exactly the no-op and no command. -/
theorem volume_noop_cases_witness :
    volume_op ⟨"v1", "", [], true⟩ (some [("Name", Value.vstr "v1")])
      = (["Volume alredy exist!"], [], none) :=
  (volume_noop_cases ⟨"v1", "", [], true⟩ (some [("Name", Value.vstr "v1")])).1
    rfl [("Name", Value.vstr "v1")] rfl (by simp)

/-- C6: the network create renderer builds its argument list but has no
return statement, so reconciling a network spec with `present=true` yields
`None` rather than a rendered create invocation (the image half of the claim
does hold: `image_op` is a pure two-way toggle). -/
theorem network_create_renders_none :
    network_op ⟨"net0", "", "", "", "", "", "", false, false, [], [], [], true⟩ = [none] := rfl

/-- C7: rendering a volume create with the single label `env=prod` does not
produce a `--label` flag carrying that entry's value: the source formats
`kwargs[label]` — a subscript of the keyword mapping by the label string —
so the rendering aborts with a `KeyError` naming the label. -/
theorem volume_label_lookup_error :
    _create_volume ⟨"v0", "", ["env=prod"], true⟩
      = Except.error (DErr.keyError "env=prod") := rfl

/-- C8: for every volume name, the volume remove renderer produces exactly
the image-removal subcommand `docker image rm ` followed by the name, not a
volume-removal subcommand. -/
theorem volume_remove_renders_image_rm (v : String) :
    _remove_volume v = "docker image rm " ++ v := rfl

/-- C9: the key normalizer lower-cases the allow-listed keys `ID`, `IPv4`,
`IPv6` whole, splits internal capitals with an underscore before lowering
(`RepoTags` to `repo_tags`), and only lower-cases a single-word key
(`Image` to `image`). -/
theorem convert_key_examples :
    convert_key "ID" = "id" ∧ convert_key "IPv4" = "ipv4" ∧ convert_key "IPv6" = "ipv6"
  ∧ convert_key "RepoTags" = "repo_tags" ∧ convert_key "Image" = "image" :=
  ⟨rfl, rfl, rfl, rfl, rfl⟩

/-- Helper: inserting a key no entry of the dict carries appends the pair. -/
lemma dictInsert_notMem (d : PyDict) (k : String) (v : Value)
    (h : ∀ p ∈ d, p.1 ≠ k) : dictInsert d k v = d ++ [(k, v)] := by
  have ha : d.any (fun p => p.1 == k) = false := by
    rw [List.any_eq_false]
    intro p hp
    simpa using h p hp
  simp [dictInsert, ha]

/-- Helper: folding the normalizing inserts over entries whose normalized
keys are pairwise distinct and disjoint from the accumulator's keys appends
one rewritten entry per input entry, in order. -/
lemma convert_dict_go (l : PyDict) (acc : PyDict)
    (hdisj : ∀ p ∈ acc, ∀ q ∈ l, p.1 ≠ convert_key q.1)
    (hnd : (l.map fun p => convert_key p.1).Nodup) :
    l.foldl (fun acc p => dictInsert acc (convert_key p.1) p.2) acc
      = acc ++ l.map (fun p => (convert_key p.1, p.2)) := by
  induction l generalizing acc with
  | nil => simp
  | cons q l ih =>
    rw [List.foldl_cons]
    rw [dictInsert_notMem acc (convert_key q.1) q.2
      (fun p hp => hdisj p hp q (List.mem_cons_self q l))]
    rw [List.map_cons, List.nodup_cons] at hnd
    rw [ih (acc ++ [(convert_key q.1, q.2)]) ?_ hnd.2]
    · simp
    · intro p hp r hr
      rcases List.mem_append.mp hp with h1 | h2
      · exact hdisj p h1 r (List.mem_cons_of_mem q hr)
      · have hpq : p = (convert_key q.1, q.2) := List.mem_singleton.mp h2
        subst hpq
        intro hc
        have hc2 : convert_key q.1 = convert_key r.1 := hc
        have hm : convert_key q.1 ∈ l.map (fun p => convert_key p.1) := by
          rw [hc2]
          exact List.mem_map_of_mem (fun p => convert_key p.1) hr
        exact hnd.1 hm

/-- C10 (counterexample): a record whose two keys `Image` and `image` both
normalize to `image` does not return every value unchanged — the Python dict
comprehension overwrites on collision, so the value of the first entry is
dropped from the normalized record. -/
theorem convert_dict_collision_counterexample :
    ¬ (("image", Value.vstr "a") ∈
        convert_dict [("Image", Value.vstr "a"), ("image", Value.vstr "b")]) := by
  intro h
  have he : convert_dict [("Image", Value.vstr "a"), ("image", Value.vstr "b")]
      = [("image", Value.vstr "b")] := rfl
  rw [he, List.mem_singleton] at h
  have hv : ("a" : String) = "b" := Value.vstr.inj (congrArg Prod.snd h)
  exact absurd hv (by decide)

/-- C10 (amended): record normalization rewrites only the top-level keys
provided no two of them normalize to the same key: for every record whose
normalized keys are pairwise distinct, every entry reappears with its key
normalized and its value — nested sub-records included — carried over
verbatim, the keys of the sub-record left in the foreign convention.  (When
keys collide, the later value overwrites the earlier one.) -/
theorem convert_dict_top_keys_only (d : PyDict) (k : String) (v : Value)
    (hnd : (d.map fun p => convert_key p.1).Nodup)
    (h : (k, v) ∈ d) : (convert_key k, v) ∈ convert_dict d := by
  unfold convert_dict
  rw [convert_dict_go d [] (by simp) hnd]
  simpa using List.mem_map_of_mem (fun p => (convert_key p.1, p.2)) h

/-- C10 (witness): normalizing a record whose `State` key holds a sub-record
keeps the sub-record and its `Status` key verbatim while rewriting only the
top-level key to `state`. -/
theorem convert_dict_top_keys_only_witness :
    ("state", Value.vdict [("Status", Value.vstr "running")]) ∈
      convert_dict [("State", Value.vdict [("Status", Value.vstr "running")])] :=
  convert_dict_top_keys_only _ "State" _ (by simp) (List.mem_singleton.mpr rfl)

end PyinfraDocker
